import Mathlib

/-!
Verification development for the SQLFluff LSP tool dispatcher
(`src/bundled/tool/lsp_server.py`).

The Python module is shallowly embedded: pure functions become Lean
functions, Python exceptions become `Except` errors, and external
collaborators (the `utils`/`jsonrpc` helpers, `sys.executable`,
`json.loads`) become fields of an explicit environment record `PyEnv`.
Filesystem paths are modelled as lists of components below the
filesystem root: `[]` is the root `/`, `["a", "b.sql"]` is `/a/b.sql`,
and `pathlib.Path.parent` is `List.dropLast` (the parent of the root is
the root itself, which is what ends the upward walk in
`_get_document_key`).
-/

namespace SqlfluffLsp

/-- A filesystem path as the list of components below the root. -/
abbrev Path := List String

/-- Python exceptions that the embedded code can raise, by exception class. -/
inductive PyError where
  | indexError
  | keyError
  | typeError
  | attributeError
  | valueError
  | jsonDecodeError
  | toolError
deriving DecidableEq

/-- `utils.RunResult`: captured stdout and stderr of one tool invocation. -/
structure RunResult where
  stdout : String
  stderr : String
deriving DecidableEq

/-- Result of `jsonrpc.run_over_json_rpc`: stdout, stderr and an optional
exception description. -/
structure RpcResult where
  stdout : String
  stderr : String
  exception : Option String
deriving DecidableEq

/-- A JSON value, as produced by `json.loads` (numbers restricted to the
integers that SQLFluff reports emit). -/
inductive JValue where
  | jnull
  | jbool (b : Bool)
  | jnum (n : Int)
  | jstr (s : String)
  | jarr (elems : List JValue)
  | jobj (fields : List (String × JValue))

/-- `lsp.Position` (the code only ever stores clamped non-negative values). -/
structure Position where
  line : Int
  character : Int
deriving DecidableEq

/-- `lsp.Range`; the LSP field `end` is called `endPos` here. -/
structure Range where
  start : Position
  endPos : Position
deriving DecidableEq

/-- `lsp.DiagnosticSeverity`. -/
inductive DiagnosticSeverity where
  | error
  | warning
  | information
  | hint
deriving DecidableEq

/-- `lsp.Diagnostic` as constructed by `_parse_sqlfluff_output`.  The
`message` and `code` fields receive whatever JSON value `v.get` returned,
without conversion, exactly as in the Python call. -/
structure Diagnostic where
  range : Range
  message : JValue
  severity : DiagnosticSeverity
  code : JValue
  source : String

/-- `lsp.TextEdit`. -/
structure TextEdit where
  range : Range
  newText : String

-- ****************************************************************
-- Python string primitives used by the module.
-- ****************************************************************

/-- One step machine for Python `str.replace(old, new)` with non-empty
pattern `p :: pt`: left-to-right, non-overlapping. -/
def replaceAux (p : Char) (pt repl : List Char) : List Char → List Char
  | [] => []
  | c :: rest =>
    if c = p ∧ pt.isPrefixOf rest then
      repl ++ replaceAux p pt repl (rest.drop pt.length)
    else
      c :: replaceAux p pt repl rest
termination_by l => l.length
decreasing_by
  · simp only [List.length_drop, List.length_cons]
    omega
  · simp only [List.length_cons]
    omega

/-- Python `s.replace(old, new)` (an empty `old` never occurs in the
embedded code; it is returned unchanged here). -/
def pyReplace (s old new : String) : String :=
  match old.data with
  | [] => s
  | p :: pt => String.mk (replaceAux p pt new.data s.data)

/-- The characters Python `str.splitlines` treats as line boundaries. -/
def isLineBreak (c : Char) : Bool :=
  c = '\n' ∨ c = '\r' ∨ c = Char.ofNat 0x0B ∨ c = Char.ofNat 0x0C ∨
  c = Char.ofNat 0x1C ∨ c = Char.ofNat 0x1D ∨ c = Char.ofNat 0x1E ∨
  c = Char.ofNat 0x85 ∨ c = Char.ofNat 0x2028 ∨ c = Char.ofNat 0x2029

/-- Worker for `str.splitlines(keepends=True)`; `acc` holds the current
line's characters in reverse.  A `'\r'` immediately followed by `'\n'`
ends a line as the single terminator `"\r\n"`. -/
def splitlinesAux : List Char → List Char → List String
  | [], acc => if acc.isEmpty then [] else [String.mk acc.reverse]
  | c :: rest, acc =>
    if c = '\r' then
      if rest.head? = some '\n' then
        String.mk (acc.reverse ++ ['\r', '\n']) :: splitlinesAux rest.tail []
      else
        String.mk (acc.reverse ++ ['\r']) :: splitlinesAux rest []
    else if isLineBreak c then
      String.mk (acc.reverse ++ [c]) :: splitlinesAux rest []
    else
      splitlinesAux rest (c :: acc)
termination_by l _ => l.length
decreasing_by
  · simp only [List.length_tail, List.length_cons]
    omega
  · simp only [List.length_cons]
    omega
  · simp only [List.length_cons]
    omega
  · simp only [List.length_cons]
    omega

/-- Python `s.splitlines(keepends=True)`. -/
def splitlinesKeepends (s : String) : List String :=
  splitlinesAux s.data []

/-- Python `l[-2:]`: the string of the last (at most) two characters. -/
def lastTwo (l : String) : String :=
  String.mk (l.data.reverse.take 2).reverse

/-- Python `s.startswith(pre)`. -/
def pyStartsWith (s pre : String) : Bool :=
  pre.data.isPrefixOf s.data

-- ****************************************************************
-- Tool constants (module level in lsp_server.py).
-- ****************************************************************

/-- `TOOL_MODULE = "sqlfluff"`. -/
def TOOL_MODULE : String := "sqlfluff"

/-- `TOOL_DISPLAY = "SQLFluff"`. -/
def TOOL_DISPLAY : String := "SQLFluff"

/-- `TOOL_ARGS = []`. -/
def TOOL_ARGS : List String := []

-- ****************************************************************
-- Output translator: _get_severity and _parse_sqlfluff_output.
-- ****************************************************************

/-- First-match lookup in a JSON object's field list (Python dicts have
unique keys; lookup returns the value stored under `k`). -/
def dictLookup (fields : List (String × JValue)) (k : String) : Option JValue :=
  match fields with
  | [] => none
  | (k2, v) :: rest => if k2 = k then some v else dictLookup rest k

/-- Python `dict.get(k, default)`. -/
def dictGet (fields : List (String × JValue)) (k : String) (dflt : JValue) : JValue :=
  (dictLookup fields k).getD dflt

/-- Using a JSON value as a Python integer (as in `raw_line - 1`): numbers
are ints, Python booleans are ints (`True == 1`), anything else raises
`TypeError` when arithmetic is attempted. -/
def asInt : JValue → Except PyError Int
  | .jnum n => .ok n
  | .jbool b => .ok (if b then 1 else 0)
  | _ => .error .typeError

/-- `_get_severity`: maps the configured severity name to an LSP severity;
any other name raises `ValueError`. -/
def getSeverity (severity : String) : Except PyError DiagnosticSeverity :=
  match severity with
  | "error" => .ok DiagnosticSeverity.error
  | "warning" => .ok DiagnosticSeverity.warning
  | "information" => .ok DiagnosticSeverity.information
  | "hint" => .ok DiagnosticSeverity.hint
  | _ => .error PyError.valueError

/-- The body of the per-violation `try` block in `_parse_sqlfluff_output`:
read the 1-based position (preferring the `start_*` fields, with the
generic `line_no`/`line_pos` as `dict.get` defaults), clamp to 0-based,
build a one-column range, and construct the diagnostic.  A violation that
is not a JSON object raises `AttributeError` at `v.get`; a non-integer
position raises `TypeError`; an unrecognized severity raises `ValueError`.
Any of these errors is caught by the surrounding `except` and the entry is
skipped. -/
def mkDiagnostic (severity : String) (v : JValue) : Except PyError Diagnostic :=
  match v with
  | .jobj fields =>
    match asInt (dictGet fields "start_line_no" (dictGet fields "line_no" (.jnum 1))) with
    | .error e => .error e
    | .ok rawLine =>
      match asInt (dictGet fields "start_line_pos" (dictGet fields "line_pos" (.jnum 1))) with
      | .error e => .error e
      | .ok rawCol =>
        let line := max (rawLine - 1) 0
        let col := max (rawCol - 1) 0
        match getSeverity severity with
        | .error e => .error e
        | .ok sev =>
          .ok { range := ⟨⟨line, col⟩, ⟨line, col + 1⟩⟩
                message := dictGet fields "description" (.jstr "")
                severity := sev
                code := dictGet fields "code" (.jstr "")
                source := TOOL_DISPLAY }
  | _ => .error .attributeError

/-- Processing of one element of `file_results`: `file_result.get
("violations", [])` followed by the `for v in violations` loop.  A file
result that is not a JSON object raises `AttributeError` at `.get`
(uncaught inside `_parse_sqlfluff_output`).  Iterating a JSON array visits
its elements; iterating a string visits its characters and iterating an
object visits its keys — in both cases every visited item is a string, so
every entry raises inside the per-entry `try` and is skipped; iterating a
number, boolean or `null` raises `TypeError` (uncaught). -/
def processFileResult (severity : String) (fileResult : JValue) :
    Except PyError (List Diagnostic) :=
  match fileResult with
  | .jobj fields =>
    match dictGet fields "violations" (.jarr []) with
    | .jarr vs => .ok (vs.filterMap (fun v => (mkDiagnostic severity v).toOption))
    | .jstr _ => .ok []
    | .jobj _ => .ok []
    | _ => .error .typeError
  | _ => .error .attributeError

/-- The `for file_result in file_results` loop: diagnostics of all file
results, concatenated in order; the first per-file exception aborts the
loop and propagates. -/
def processFileResults (severity : String) : List JValue → Except PyError (List Diagnostic)
  | [] => .ok []
  | fr :: rest =>
    match processFileResult severity fr with
    | .error e => .error e
    | .ok ds =>
      match processFileResults severity rest with
      | .error e => .error e
      | .ok more => .ok (ds ++ more)

/-- `_parse_sqlfluff_output`.  The argument `decoded` is the outcome of
`json.loads(content)`: a decode failure is caught, logged, and turns into
an empty diagnostic list.  A decoded list is used as the sequence of file
results, any other value is wrapped in a singleton list; per-file errors
propagate out of the function (to be caught by the calling helper). -/
def parseSqlfluffOutput (decoded : Except PyError JValue) (severity : String) :
    Except PyError (List Diagnostic) :=
  match decoded with
  | .error _ => .ok []
  | .ok data =>
    let fileResults := match data with
      | .jarr xs => xs
      | d => [d]
    processFileResults severity fileResults

-- ****************************************************************
-- Settings resolver: _get_global_defaults, _get_document_key,
-- _get_settings_by_document.
-- ****************************************************************

/-- The `GLOBAL_SETTINGS` mapping: each key may be absent, in which case
`_get_global_defaults` substitutes its default. -/
structure GlobalSettings where
  path : Option (List String)
  interpreter : Option (List String)
  args : Option (List String)
  importStrategy : Option String
  showNotifications : Option String
  formatOnSave : Option Bool
  executablePath : Option String
  diagnosticSeverity : Option String
  dialect : Option String
  templater : Option String
deriving DecidableEq

/-- The empty `GLOBAL_SETTINGS` dict (before any `initialize`). -/
def GlobalSettings.empty : GlobalSettings :=
  ⟨none, none, none, none, none, none, none, none, none, none⟩

/-- One effective settings record, as consumed by the dispatcher.  The
fields accessed with `settings[...]` in the source (`cwd`, `workspaceFS`,
`path`, `interpreter`, `args`) are required; the fields accessed with
`settings.get(...)` (`diagnosticSeverity`, `dialect`, `templater`) are
optional. -/
structure Settings where
  cwd : Path
  workspaceFS : Path
  workspace : Path
  path : List String
  interpreter : List String
  args : List String
  importStrategy : String
  showNotifications : String
  formatOnSave : Bool
  executablePath : String
  diagnosticSeverity : Option String
  dialect : Option String
  templater : Option String
deriving DecidableEq

/-- A `workspace.Document` as read by the dispatcher: URI, optional
filesystem path, and source text. -/
structure Document where
  uri : String
  path : Option Path
  source : String
deriving DecidableEq

/-- The external collaborators of the module, as an explicit environment:
the `utils`/`jsonrpc` helpers, `json.loads`, and the process constant
`sys.executable`. -/
structure PyEnv where
  /-- `utils.run_path (argv, use_stdin, cwd, source)` (exceptions
  propagate). -/
  runPath : List String → Bool → Path → String → Except PyError RunResult
  /-- `jsonrpc.run_over_json_rpc (workspace, interpreter, module, argv,
  use_stdin, cwd, source)` (reports exceptions in its result record
  instead of raising). -/
  runRpc : Path → List String → String → List String → Bool → Path → String → RpcResult
  /-- `utils.run_module (module, argv, use_stdin, cwd, source)` (exceptions
  are logged and re-raised). -/
  runModule : String → List String → Bool → Path → String → Except PyError RunResult
  /-- `utils.is_current_interpreter`. -/
  isCurrentInterpreter : String → Bool
  /-- `utils.is_stdlib_file` (applied to `document.path`). -/
  isStdlibFile : Option Path → Bool
  /-- `json.loads`. -/
  jsonLoads : String → Except PyError JValue
  /-- `sys.executable`. -/
  sysExecutable : String

/-- `_get_global_defaults()` together with the `cwd`/`workspaceFS`/
`workspace` keys that both synthesizing call sites
(`_update_workspace_settings` with no settings and
`_get_settings_by_document` with no matching workspace) merge in, all
scoped to `key`.  `uris.from_fs_path` is the identity in the path model. -/
def synthesizedSettings (env : PyEnv) (g : GlobalSettings) (key : Path) : Settings :=
  { cwd := key
    workspaceFS := key
    workspace := key
    path := g.path.getD []
    interpreter := g.interpreter.getD [env.sysExecutable]
    args := g.args.getD []
    importStrategy := g.importStrategy.getD "useBundled"
    showNotifications := g.showNotifications.getD "off"
    formatOnSave := g.formatOnSave.getD false
    executablePath := g.executablePath.getD ""
    diagnosticSeverity := some (g.diagnosticSeverity.getD "warning")
    dialect := g.dialect
    templater := g.templater }

/-- The `while document_workspace != document_workspace.parent` loop of
`_get_document_key`: check the current path against the workspace roots,
then move to the parent.  The loop guard fails exactly at the filesystem
root (`[]`), whose parent is itself, so the root is never checked. -/
def walkUp (roots : List Path) (p : Path) : Option Path :=
  if p = [] then none
  else if p ∈ roots then some p
  else walkUp roots p.dropLast
termination_by p.length
decreasing_by
  rename_i hp _
  have : p.length ≠ 0 := fun h => hp (List.eq_nil_of_length_eq_zero h)
  simp only [List.length_dropLast]
  omega

/-- `WORKSPACE_SETTINGS` is a dict keyed by workspace root path, modelled
as an association list in insertion order.  The set
`{s["workspaceFS"] for s in WORKSPACE_SETTINGS.values()}`. -/
def workspaceRoots (ws : List (Path × Settings)) : List Path :=
  ws.map (fun e => e.2.workspaceFS)

/-- `_get_document_key`: `None` when no workspace settings exist, else the
upward walk from the document's path through the workspace-root set. -/
def getDocumentKey (ws : List (Path × Settings)) (p : Path) : Option Path :=
  if ws.isEmpty then none
  else walkUp (workspaceRoots ws) p

/-- Dict lookup `WORKSPACE_SETTINGS[key]` (raises `KeyError` if absent). -/
def lookupWs (ws : List (Path × Settings)) (key : Path) : Option Settings :=
  match ws with
  | [] => none
  | (k, s) :: rest => if k = key then some s else lookupWs rest key

/-- `_get_settings_by_document`.  A document that is `None` or has no path
resolves to the first stored record (`list(WORKSPACE_SETTINGS.values())[0]`
raises `IndexError` when the dict is empty — the failure the specification
calls `ConfigurationError`).  Otherwise the nearest enclosing workspace
root's record is returned, or defaults synthesized at the document's
parent directory when no root matches. -/
def getSettingsByDocument (env : PyEnv) (ws : List (Path × Settings))
    (g : GlobalSettings) (document : Option Document) : Except PyError Settings :=
  match document with
  | none => match ws with
    | [] => .error .indexError
    | e :: _ => .ok e.2
  | some d =>
    match d.path with
    | none => match ws with
      | [] => .error .indexError
      | e :: _ => .ok e.2
    | some p =>
      match getDocumentKey ws p with
      | none => .ok (synthesizedSettings env g p.dropLast)
      | some key =>
        match lookupWs ws key with
        | some s => .ok s
        | none => .error .keyError

-- ****************************************************************
-- Internal execution APIs: _run_tool_on_document and the two helpers.
-- ****************************************************************

/-- Rendering of a path for the command line (POSIX style). -/
def pathToString (p : Path) : String :=
  "/" ++ String.intercalate "/" p

/-- The execution strategy chosen by `_run_tool_on_document`: the
`use_path` / `use_rpc` / default branches. -/
inductive Strategy where
  | direct
  | rpc
  | inProcess
deriving DecidableEq

/-- The strategy selection of `_run_tool_on_document`: a non-empty `path`
setting takes priority over everything; otherwise a configured interpreter
that is not the current one selects JSON-RPC; otherwise the tool runs as a
module in-process. -/
def selectStrategy (s : Settings) (isCurrentInterpreter : String → Bool) : Strategy :=
  if s.path ≠ [] then Strategy.direct
  else match s.interpreter with
    | i :: _ => if ¬ isCurrentInterpreter i then Strategy.rpc else Strategy.inProcess
    | [] => Strategy.inProcess

/-- The document-delivery suffix of the command line:
`["--stdin-filename", document.path, "-"]` in stdin mode, `[document.path]`
in file mode. -/
def stdinFileArgs (p : Path) (useStdin : Bool) : List String :=
  if useStdin then ["--stdin-filename", pathToString p, "-"] else [pathToString p]

/-- The full argv built by `_run_tool_on_document`: the strategy's base
(`settings["path"]` or `[TOOL_MODULE]`), then
`TOOL_ARGS + settings["args"] + extra_args`, then the delivery suffix. -/
def dispatchArgv (s : Settings) (isCurrentInterpreter : String → Bool) (p : Path)
    (useStdin : Bool) (extraArgs : List String) : List String :=
  (match selectStrategy s isCurrentInterpreter with
    | Strategy.direct => s.path
    | _ => [TOOL_MODULE])
  ++ TOOL_ARGS ++ s.args ++ extraArgs ++ stdinFileArgs p useStdin

/-- One tool invocation of `_run_tool_on_document` (the `use_path` /
`use_rpc` / module branches), before the stdin-fallback check.
Direct-executable mode sends `document.source.replace("\r\n", "\n")`; the
RPC and module branches send `document.source` unmodified.  An RPC
exception is logged and the result downgraded to a plain `RunResult`, so
the RPC branch never raises; `run_path` and `run_module` exceptions
propagate. -/
def dispatchRun (env : PyEnv) (s : Settings) (document : Document) (p : Path)
    (useStdin : Bool) (extraArgs : List String) : Except PyError RunResult :=
  let argv := dispatchArgv s env.isCurrentInterpreter p useStdin extraArgs
  match selectStrategy s env.isCurrentInterpreter with
  | Strategy.direct =>
    env.runPath argv useStdin s.cwd (pyReplace document.source "\r\n" "\n")
  | Strategy.rpc =>
    let r := env.runRpc s.workspaceFS s.interpreter TOOL_MODULE argv useStdin s.cwd
      document.source
    .ok ⟨r.stdout, r.stderr⟩
  | Strategy.inProcess =>
    env.runModule TOOL_MODULE argv useStdin s.cwd document.source

/-- The outcome of `_run_tool_on_document`: the possible return value or
propagated exception, together with the `use_stdin` flag of each tool
invocation that was performed, in order (the model of the invocation side
effect). -/
structure RunOutcome where
  attempts : List Bool
  result : Except PyError (Option RunResult)

/-- `_run_tool_on_document`.  Notebook cells and standard-library files
are skipped (`None`, no invocation).  Settings-resolution exceptions
propagate.  A document without a path raises `TypeError` at the
`" ".join(argv)` log line in every mode, before any invocation.  After a
stdin-mode invocation that returned a result with non-empty stderr or
empty stdout, the call re-enters itself once in file mode with the
original extra args; a file-mode invocation's result is returned as is. -/
def runToolOnDocument (env : PyEnv) (ws : List (Path × Settings)) (g : GlobalSettings)
    (document : Document) (useStdin : Bool) (extraArgs : List String) : RunOutcome :=
  if pyStartsWith document.uri "vscode-notebook-cell" then ⟨[], .ok none⟩
  else if env.isStdlibFile document.path then ⟨[], .ok none⟩
  else
    match getSettingsByDocument env ws g (some document) with
    | .error e => ⟨[], .error e⟩
    | .ok s =>
      match document.path with
      | none => ⟨[], .error .typeError⟩
      | some p =>
        match dispatchRun env s document p useStdin extraArgs with
        | .error e => ⟨[useStdin], .error e⟩
        | .ok r =>
          if useStdin ∧ (r.stderr ≠ "" ∨ r.stdout = "") then
            let o := runToolOnDocument env ws g document false extraArgs
            ⟨useStdin :: o.attempts, o.result⟩
          else ⟨[useStdin], .ok (some r)⟩
termination_by useStdin.toNat
decreasing_by
  rename_i h
  simp only [h.1, Bool.toNat_true, Bool.toNat_false]
  omega

/-- The lint command line built by `_linting_helper` from the resolved
settings (a falsy — absent or empty — dialect or templater adds
nothing). -/
def lintArgs (s : Settings) : List String :=
  ["lint", "-f", "json", "--disable-progress-bar"]
  ++ (match s.dialect with
      | some d => if d ≠ "" then ["--dialect", d] else []
      | none => [])
  ++ (match s.templater with
      | some t => if t ≠ "" then ["--templater", t] else []
      | none => [])

/-- The fix command line built by `_formatting_helper`. -/
def fixArgs (s : Settings) : List String :=
  ["fix", "--disable-progress-bar", "--quiet", "--FIX-EVEN-UNPARSABLE"]
  ++ (match s.dialect with
      | some d => if d ≠ "" then ["--dialect", d] else []
      | none => [])
  ++ (match s.templater with
      | some t => if t ≠ "" then ["--templater", t] else []
      | none => [])

/-- `_get_line_endings`: inspect the first line's last two characters; an
empty line list raises `IndexError`, caught and turned into `None`. -/
def getLineEndings (lines : List String) : Option String :=
  match lines with
  | [] => none
  | l :: _ => if lastTwo l = "\r\n" then some "\r\n" else some "\n"

/-- `_match_line_endings`: if the detected endings of the document and of
the new text both exist and differ, globally replace the text's detected
ending with the document's. -/
def matchLineEndings (documentSource text : String) : String :=
  let expected := getLineEndings (splitlinesKeepends documentSource)
  let actual := getLineEndings (splitlinesKeepends text)
  match actual, expected with
  | some a, some e => if a = e then text else pyReplace text a e
  | _, _ => text

/-- Outcome of `_linting_helper`: the published diagnostics and the tool
invocations performed. -/
structure LintOutcome where
  diagnostics : List Diagnostic
  attempts : List Bool

/-- The tail of `_linting_helper`: parse the stdout of a produced result;
a missing result or empty stdout yields no diagnostics, and a parsing
exception is caught by the helper's outer `except` (also yielding none). -/
def finishLint (env : PyEnv) (severity : String) (result : Option RunResult)
    (attempts : List Bool) : LintOutcome :=
  match result with
  | some r =>
    if r.stdout ≠ "" then
      match parseSqlfluffOutput (env.jsonLoads r.stdout) severity with
      | .ok ds => ⟨ds, attempts⟩
      | .error _ => ⟨[], attempts⟩
    else ⟨[], attempts⟩
  | none => ⟨[], attempts⟩

/-- `_linting_helper`: resolve settings, run the tool in stdin mode, on an
exception retry once in file mode, and parse the result; any remaining
exception is caught by the outer `except`, which returns no
diagnostics.  (The duplicated settings resolution in the source is pure
and collapses to one call here.) -/
def lintingHelper (env : PyEnv) (ws : List (Path × Settings)) (g : GlobalSettings)
    (document : Document) : LintOutcome :=
  match getSettingsByDocument env ws g (some document) with
  | .error _ => ⟨[], []⟩
  | .ok s =>
    let args := lintArgs s
    let severity := s.diagnosticSeverity.getD "warning"
    let o1 := runToolOnDocument env ws g document true args
    match o1.result with
    | .ok r => finishLint env severity r o1.attempts
    | .error _ =>
      let o2 := runToolOnDocument env ws g document false args
      match o2.result with
      | .ok r => finishLint env severity r (o1.attempts ++ o2.attempts)
      | .error _ => ⟨[], o1.attempts ++ o2.attempts⟩

/-- Outcome of `_formatting_helper`: the produced edit, if any, and the
tool invocations performed. -/
structure FormatOutcome where
  edits : Option TextEdit
  attempts : List Bool

/-- `_formatting_helper`: resolve settings and run the fixer in stdin mode
(there is no exception-triggered retry here: any exception lands in the
outer `except`, which returns `None`).  A produced result with non-empty
stdout becomes one full-document edit whose text has its line endings
matched to the document. -/
def formattingHelper (env : PyEnv) (ws : List (Path × Settings)) (g : GlobalSettings)
    (document : Document) : FormatOutcome :=
  match getSettingsByDocument env ws g (some document) with
  | .error _ => ⟨none, []⟩
  | .ok s =>
    let o := runToolOnDocument env ws g document true (fixArgs s)
    match o.result with
    | .error _ => ⟨none, o.attempts⟩
    | .ok none => ⟨none, o.attempts⟩
    | .ok (some r) =>
      if r.stdout ≠ "" then
        ⟨some { range := ⟨⟨0, 0⟩, ⟨((splitlinesKeepends document.source).length : Int), 0⟩⟩
                newText := matchLineEndings document.source r.stdout },
         o.attempts⟩
      else ⟨none, o.attempts⟩

-- ****************************************************************
-- Shared concrete instances used by witnesses and counterexamples.
-- ****************************************************************

/-- A neutral environment: all runs succeed with empty output, the
current interpreter matches, no document is a stdlib file. -/
def sampleEnv : PyEnv :=
  { runPath := fun _ _ _ _ => .ok ⟨"", ""⟩
    runRpc := fun _ _ _ _ _ _ _ => ⟨"", "", none⟩
    runModule := fun _ _ _ _ _ => .ok ⟨"", ""⟩
    isCurrentInterpreter := fun _ => true
    isStdlibFile := fun _ => false
    jsonLoads := fun _ => .error .jsonDecodeError
    sysExecutable := "/usr/bin/python3" }

/-- An environment whose in-process module run raises on stdin delivery
and succeeds with an empty lint report on file delivery. -/
def envStdinRaises : PyEnv :=
  { sampleEnv with
    runModule := fun _ _ useStdin _ _ =>
      if useStdin then .error .toolError else .ok ⟨"[]", ""⟩
    jsonLoads := fun s => if s = "[]" then .ok (.jarr []) else .error .jsonDecodeError }

/-- An environment whose in-process module run yields a stderr-carrying
result on stdin delivery and a clean result on file delivery. -/
def envBadStdinResult : PyEnv :=
  { sampleEnv with
    runModule := fun _ _ useStdin _ _ =>
      if useStdin then .ok ⟨"", "parse failure"⟩ else .ok ⟨"fixed sql", ""⟩ }

/-- An environment in which every run echoes the source it was sent back
on stdout, to observe what content each strategy delivers. -/
def echoEnv (isCur : String → Bool) : PyEnv :=
  { runPath := fun _ _ _ src => .ok ⟨src, ""⟩
    runRpc := fun _ _ _ _ _ _ src => ⟨src, "", none⟩
    runModule := fun _ _ _ _ src => .ok ⟨src, ""⟩
    isCurrentInterpreter := isCur
    isStdlibFile := fun _ => false
    jsonLoads := fun _ => .error .jsonDecodeError
    sysExecutable := "/usr/bin/python3" }

/-- A saved SQL document at `/proj/q.sql`. -/
def sampleDoc : Document := ⟨"file:///proj/q.sql", some ["proj", "q.sql"], "select 1\n"⟩

/-- An unsaved buffer: no filesystem path. -/
def pathlessDoc : Document := ⟨"untitled:Untitled-1", none, "select 1"⟩

/-- A well-formed SQLFluff violation entry. -/
def sampleViolation : JValue :=
  .jobj [("start_line_no", .jnum 3), ("start_line_pos", .jnum 5),
         ("code", .jstr "L010"), ("description", .jstr "Keywords must be upper case.")]

/-- A lint report containing the single violation `sampleViolation`. -/
def sampleReport : JValue := .jobj [("violations", .jarr [sampleViolation])]

-- ****************************************************************
-- C1
-- ****************************************************************

/-- C1 (confirmed): for every document that has no filesystem path, when
no workspace settings exist at all, `_get_settings_by_document` fails —
`list(WORKSPACE_SETTINGS.values())[0]` raises on the empty dict, the
failure the specification's error taxonomy names `ConfigurationError` —
rather than returning any settings record. -/
theorem c1_no_path_no_workspace_fails (env : PyEnv) (g : GlobalSettings)
    (d : Document) (hpath : d.path = none) :
    getSettingsByDocument env [] g (some d) = .error PyError.indexError := by
  simp [getSettingsByDocument, hpath]

/-- Witness for C1 at a concrete pathless document and empty settings. -/
theorem c1_witness :
    pathlessDoc.path = none ∧
    getSettingsByDocument sampleEnv [] GlobalSettings.empty (some pathlessDoc) =
      .error PyError.indexError :=
  ⟨rfl, c1_no_path_no_workspace_fails sampleEnv GlobalSettings.empty pathlessDoc rfl⟩

-- ****************************************************************
-- C9
-- ****************************************************************

/-- C9 (confirmed): whenever the resolved settings carry a non-empty
`path`, the strategy selector picks direct-executable mode, whatever the
interpreter settings and the current-interpreter check say. -/
theorem c9_path_override_selects_direct (s : Settings)
    (isCurrentInterpreter : String → Bool) (h : s.path ≠ []) :
    selectStrategy s isCurrentInterpreter = Strategy.direct := by
  simp [selectStrategy, h]

/-- A settings record with a tool-path override and a configured
interpreter that matches the current one. -/
def pathOverrideSettings : Settings :=
  { cwd := ["proj"], workspaceFS := ["proj"], workspace := ["proj"]
    path := ["/opt/sqlfluff/bin/sqlfluff"]
    interpreter := ["/usr/bin/python3"], args := []
    importStrategy := "useBundled", showNotifications := "off"
    formatOnSave := false, executablePath := ""
    diagnosticSeverity := some "warning", dialect := none, templater := none }

/-- Witness for C9: with a tool-path override set and the interpreter
equal to the current one, direct mode is still chosen. -/
theorem c9_witness :
    pathOverrideSettings.path ≠ [] ∧
    selectStrategy pathOverrideSettings (fun _ => true) = Strategy.direct :=
  ⟨by decide, c9_path_override_selects_direct pathOverrideSettings (fun _ => true) (by decide)⟩

-- ****************************************************************
-- C4
-- ****************************************************************

/-- `_get_severity` on a name that is none of the four recognized ones. -/
lemma getSeverity_unknown (s : String) (h1 : s ≠ "error") (h2 : s ≠ "warning")
    (h3 : s ≠ "information") (h4 : s ≠ "hint") :
    getSeverity s = .error PyError.valueError := by
  simp [getSeverity, h1, h2, h3, h4]

/-- When the configured severity is unrecognized, every violation entry's
diagnostic construction fails, so the per-entry `except` skips it. -/
lemma mkDiagnostic_none_of_severity {s : String}
    (hs : getSeverity s = .error PyError.valueError) (v : JValue) :
    (mkDiagnostic s v).toOption = none := by
  cases v with
  | jobj fields =>
    simp only [mkDiagnostic]
    cases h1 : asInt (dictGet fields "start_line_no" (dictGet fields "line_no" (.jnum 1))) with
    | error e => simp [Except.toOption]
    | ok a =>
      cases h2 : asInt (dictGet fields "start_line_pos" (dictGet fields "line_pos" (.jnum 1))) with
      | error e => simp [Except.toOption]
      | ok b => simp [hs, Except.toOption]
  | jnull => simp [mkDiagnostic, Except.toOption]
  | jbool b => simp [mkDiagnostic, Except.toOption]
  | jnum n => simp [mkDiagnostic, Except.toOption]
  | jstr t => simp [mkDiagnostic, Except.toOption]
  | jarr xs => simp [mkDiagnostic, Except.toOption]

/-- C4 (counterexample): the claim says processing a lint report with an
unrecognized severity name raises an error immediately.  On the concrete
report `sampleReport` — whose single entry is well-formed, as the third
conjunct shows by producing its diagnostic under `"warning"` — processing
under `"critical"` returns normally with an empty list: the
`ValueError` from `_get_severity` is caught by the per-violation `except`
and the entry is skipped, so no error is visible. -/
theorem c4_counterexample :
    getSeverity "critical" = .error PyError.valueError ∧
    parseSqlfluffOutput (.ok sampleReport) "critical" = .ok [] ∧
    parseSqlfluffOutput (.ok sampleReport) "warning" =
      .ok [⟨⟨⟨2, 4⟩, ⟨2, 5⟩⟩, .jstr "Keywords must be upper case.",
           DiagnosticSeverity.warning, .jstr "L010", "SQLFluff"⟩] :=
  ⟨rfl, rfl, rfl⟩

/-- C4 (amended, proved): `_get_severity` itself raises `ValueError` on
every unrecognized severity name — it never defaults — but
`_parse_sqlfluff_output` catches that error per violation entry and skips
the entry, so processing a lint report completes without raising and
produces no diagnostic at all (in particular none with a silently
defaulted severity). -/
theorem c4_unrecognized_severity_skips_all (s : String) (vs : List JValue)
    (h1 : s ≠ "error") (h2 : s ≠ "warning") (h3 : s ≠ "information") (h4 : s ≠ "hint") :
    getSeverity s = .error PyError.valueError ∧
    processFileResult s (.jobj [("violations", .jarr vs)]) = .ok [] := by
  refine ⟨getSeverity_unknown s h1 h2 h3 h4, ?_⟩
  simp only [processFileResult, dictGet, dictLookup, if_pos, Option.getD_some]
  refine congrArg Except.ok ?_
  rw [List.filterMap_eq_nil_iff]
  intro v hv
  exact mkDiagnostic_none_of_severity (getSeverity_unknown s h1 h2 h3 h4) v

/-- Witness for C4's amended theorem at the severity `"critical"` and the
well-formed violation list of `sampleReport`. -/
theorem c4_witness :
    getSeverity "critical" = .error PyError.valueError ∧
    processFileResult "critical" (.jobj [("violations", .jarr [sampleViolation])]) = .ok [] :=
  c4_unrecognized_severity_skips_all "critical" [sampleViolation]
    (by decide) (by decide) (by decide) (by decide)

-- ****************************************************************
-- C6
-- ****************************************************************

/-- C6 (confirmed): a well-formed violation's diagnostic takes the 1-based
position from `start_line_no`/`start_line_pos` when those fields are
present (whatever `line_no`/`line_pos` hold), falls back to
`line_no`/`line_pos` when they are absent, converts to 0-based, and spans
exactly one column; in particular `start_line_no=3, start_line_pos=5`
yields the range `{line 2, char 4}`–`{line 2, char 5}`. -/
theorem c6_position_translation (fields : List (String × JValue)) (sevName : String)
    (sev : DiagnosticSeverity) (a b : Int) (hsev : getSeverity sevName = .ok sev) :
    (dictLookup fields "start_line_no" = some (.jnum a) →
     dictLookup fields "start_line_pos" = some (.jnum b) →
     mkDiagnostic sevName (.jobj fields) =
       .ok { range := ⟨⟨max (a - 1) 0, max (b - 1) 0⟩,
                       ⟨max (a - 1) 0, max (b - 1) 0 + 1⟩⟩
             message := dictGet fields "description" (.jstr "")
             severity := sev
             code := dictGet fields "code" (.jstr "")
             source := TOOL_DISPLAY }) ∧
    (dictLookup fields "start_line_no" = none →
     dictLookup fields "start_line_pos" = none →
     dictLookup fields "line_no" = some (.jnum a) →
     dictLookup fields "line_pos" = some (.jnum b) →
     mkDiagnostic sevName (.jobj fields) =
       .ok { range := ⟨⟨max (a - 1) 0, max (b - 1) 0⟩,
                       ⟨max (a - 1) 0, max (b - 1) 0 + 1⟩⟩
             message := dictGet fields "description" (.jstr "")
             severity := sev
             code := dictGet fields "code" (.jstr "")
             source := TOOL_DISPLAY }) ∧
    mkDiagnostic "warning" sampleViolation =
      .ok { range := ⟨⟨2, 4⟩, ⟨2, 5⟩⟩
            message := .jstr "Keywords must be upper case."
            severity := DiagnosticSeverity.warning
            code := .jstr "L010"
            source := "SQLFluff" } := by
  refine ⟨?_, ?_, rfl⟩
  · intro hl hc
    simp [mkDiagnostic, dictGet, hl, hc, asInt, hsev]
  · intro hl0 hc0 hl hc
    simp [mkDiagnostic, dictGet, hl0, hc0, hl, hc, asInt, hsev]

/-- A violation carrying both the preferred `start_*` fields and
conflicting generic fields. -/
def preferenceViolation : List (String × JValue) :=
  [("start_line_no", .jnum 3), ("line_no", .jnum 9),
   ("start_line_pos", .jnum 5), ("line_pos", .jnum 9)]

/-- Witness for C6: with `start_line_no=3, start_line_pos=5` present (and
conflicting `line_no=line_pos=9` ignored), the produced range is
`{2,4}`–`{2,5}`. -/
theorem c6_witness :
    mkDiagnostic "information" (.jobj preferenceViolation) =
      .ok { range := ⟨⟨2, 4⟩, ⟨2, 5⟩⟩
            message := .jstr ""
            severity := DiagnosticSeverity.information
            code := .jstr ""
            source := "SQLFluff" } := by
  have h := (c6_position_translation preferenceViolation "information"
    DiagnosticSeverity.information 3 5 rfl).1 rfl rfl
  simpa using h

-- ****************************************************************
-- C7
-- ****************************************************************

/-- C7 (confirmed): stdout that is not valid JSON — a `json.loads`
failure — parses to the empty diagnostic list without any error reaching
the caller; and a report containing a malformed individual violation entry
parses exactly as the same report without that entry, so only the bad
entry is dropped and every remaining well-formed entry still produces its
diagnostic. -/
theorem c7_output_parse_error_handling (e e2 : PyError) (sev : String)
    (vs1 vs2 : List JValue) (bad : JValue)
    (hbad : mkDiagnostic sev bad = .error e2) :
    parseSqlfluffOutput (.error e) sev = .ok [] ∧
    parseSqlfluffOutput (.ok (.jobj [("violations", .jarr (vs1 ++ bad :: vs2))])) sev =
      parseSqlfluffOutput (.ok (.jobj [("violations", .jarr (vs1 ++ vs2))])) sev := by
  refine ⟨rfl, ?_⟩
  simp [parseSqlfluffOutput, processFileResults, processFileResult, dictGet, dictLookup,
    List.filterMap_append, List.filterMap_cons, hbad, Except.toOption]

/-- Witness for C7: a decode failure yields no diagnostics; dropping the
malformed entry `"oops"` from a report leaves the well-formed entry's
diagnostic intact (third conjunct computes it). -/
theorem c7_witness :
    parseSqlfluffOutput (.error PyError.jsonDecodeError) "warning" = .ok [] ∧
    parseSqlfluffOutput (.ok (.jobj [("violations", .jarr [sampleViolation, .jstr "oops"])]))
        "warning" =
      parseSqlfluffOutput (.ok (.jobj [("violations", .jarr [sampleViolation])])) "warning" ∧
    parseSqlfluffOutput (.ok (.jobj [("violations", .jarr [sampleViolation, .jstr "oops"])]))
        "warning" =
      .ok [{ range := ⟨⟨2, 4⟩, ⟨2, 5⟩⟩
             message := .jstr "Keywords must be upper case."
             severity := DiagnosticSeverity.warning
             code := .jstr "L010"
             source := "SQLFluff" }] := by
  have h := c7_output_parse_error_handling PyError.jsonDecodeError PyError.attributeError
    "warning" [sampleViolation] [] (.jstr "oops") rfl
  exact ⟨h.1, h.2, rfl⟩

-- ****************************************************************
-- C10
-- ****************************************************************

/-- Every diagnostic actually constructed by the per-violation block is a
one-column range on a single line with clamped, non-negative position. -/
lemma mkDiagnostic_ok_inv {sev : String} {v : JValue} {d : Diagnostic}
    (h : mkDiagnostic sev v = .ok d) :
    d.range.endPos.line = d.range.start.line ∧
    d.range.endPos.character = d.range.start.character + 1 ∧
    0 ≤ d.range.start.line ∧ 0 ≤ d.range.start.character := by
  cases v with
  | jobj fields =>
    simp only [mkDiagnostic] at h
    cases h1 : asInt (dictGet fields "start_line_no" (dictGet fields "line_no" (.jnum 1))) with
    | error e => rw [h1] at h; exact absurd h (by simp)
    | ok a =>
      rw [h1] at h
      cases h2 : asInt (dictGet fields "start_line_pos" (dictGet fields "line_pos" (.jnum 1))) with
      | error e => rw [h2] at h; exact absurd h (by simp)
      | ok b =>
        rw [h2] at h
        cases h3 : getSeverity sev with
        | error e => rw [h3] at h; exact absurd h (by simp)
        | ok sv =>
          rw [h3] at h
          injection h with h
          subst h
          refine ⟨rfl, rfl, le_max_right _ _, le_max_right _ _⟩
  | jnull => exact absurd h (by simp [mkDiagnostic])
  | jbool b => exact absurd h (by simp [mkDiagnostic])
  | jnum n => exact absurd h (by simp [mkDiagnostic])
  | jstr t => exact absurd h (by simp [mkDiagnostic])
  | jarr xs => exact absurd h (by simp [mkDiagnostic])

/-- Every diagnostic produced for one file result comes from some
violation entry's successful construction. -/
lemma processFileResult_mem {sev : String} {fr : JValue} {ds : List Diagnostic}
    {d : Diagnostic} (h : processFileResult sev fr = .ok ds) (hd : d ∈ ds) :
    ∃ v, mkDiagnostic sev v = .ok d := by
  cases fr with
  | jobj fields =>
    simp only [processFileResult] at h
    cases hv : dictGet fields "violations" (.jarr []) with
    | jarr vs =>
      rw [hv] at h
      injection h with h
      subst h
      obtain ⟨v, _, hvd⟩ := List.mem_filterMap.mp hd
      cases hm : mkDiagnostic sev v with
      | ok d2 =>
        rw [hm] at hvd
        simp only [Except.toOption, Option.some.injEq] at hvd
        exact ⟨v, by rw [hm, hvd]⟩
      | error e => rw [hm] at hvd; simp [Except.toOption] at hvd
    | jstr t =>
      rw [hv] at h; injection h with h; subst h; cases hd
    | jobj fs =>
      rw [hv] at h; injection h with h; subst h; cases hd
    | jnull => rw [hv] at h; exact absurd h (by simp)
    | jbool b => rw [hv] at h; exact absurd h (by simp)
    | jnum n => rw [hv] at h; exact absurd h (by simp)
  | jnull => exact absurd h (by simp [processFileResult])
  | jbool b => exact absurd h (by simp [processFileResult])
  | jnum n => exact absurd h (by simp [processFileResult])
  | jstr t => exact absurd h (by simp [processFileResult])
  | jarr xs => exact absurd h (by simp [processFileResult])

/-- Every diagnostic produced across all file results comes from some
violation entry's successful construction. -/
lemma processFileResults_mem {sev : String} {frs : List JValue}
    {out : List Diagnostic} {d : Diagnostic}
    (h : processFileResults sev frs = .ok out) (hd : d ∈ out) :
    ∃ v, mkDiagnostic sev v = .ok d := by
  induction frs generalizing out with
  | nil =>
    simp only [processFileResults] at h
    injection h with h
    subst h
    cases hd
  | cons fr rest ih =>
    simp only [processFileResults] at h
    cases h1 : processFileResult sev fr with
    | error e => rw [h1] at h; exact absurd h (by simp)
    | ok ds =>
      rw [h1] at h
      cases h2 : processFileResults sev rest with
      | error e => rw [h2] at h; exact absurd h (by simp)
      | ok more =>
        rw [h2] at h
        injection h with h
        subst h
        rcases List.mem_append.mp hd with hmem | hmem
        · exact processFileResult_mem h1 hmem
        · exact ih h2 hmem

/-- C10 (confirmed): every diagnostic produced from a lint report has a
range confined to a single line and exactly one character wide, with
non-negative line and character values — the 1-based values from the
report are clamped to 0 after conversion, so this holds even for zero or
negative reported positions. -/
theorem c10_diagnostic_range_invariant (decoded : Except PyError JValue) (sev : String)
    (out : List Diagnostic) (h : parseSqlfluffOutput decoded sev = .ok out)
    (d : Diagnostic) (hd : d ∈ out) :
    d.range.endPos.line = d.range.start.line ∧
    d.range.endPos.character = d.range.start.character + 1 ∧
    0 ≤ d.range.start.line ∧ 0 ≤ d.range.start.character := by
  cases decoded with
  | error e =>
    simp only [parseSqlfluffOutput] at h
    injection h with h
    subst h
    cases hd
  | ok data =>
    simp only [parseSqlfluffOutput] at h
    obtain ⟨v, hv⟩ := processFileResults_mem h hd
    exact mkDiagnostic_ok_inv hv

/-- A violation with a zero line and a negative column. -/
def clampViolation : JValue := .jobj [("line_no", .jnum 0), ("line_pos", .jnum (-7))]

/-- The diagnostic the dispatcher produces for `clampViolation`: clamped
to the origin, one column wide. -/
def clampDiag : Diagnostic :=
  { range := ⟨⟨0, 0⟩, ⟨0, 1⟩⟩, message := .jstr "",
    severity := DiagnosticSeverity.warning, code := .jstr "", source := "SQLFluff" }

/-- Witness for C10 at a report whose only violation carries a zero line
number and a negative column. -/
theorem c10_witness :
    parseSqlfluffOutput (.ok (.jobj [("violations", .jarr [clampViolation])])) "warning" =
      .ok [clampDiag] ∧
    clampDiag.range.endPos.line = clampDiag.range.start.line ∧
    clampDiag.range.endPos.character = clampDiag.range.start.character + 1 ∧
    0 ≤ clampDiag.range.start.line ∧ 0 ≤ clampDiag.range.start.character :=
  ⟨rfl, c10_diagnostic_range_invariant
    (.ok (.jobj [("violations", .jarr [clampViolation])])) "warning"
    [clampDiag] rfl clampDiag (by simp)⟩

-- ****************************************************************
-- C2
-- ****************************************************************

/-- `_linting_helper`'s final parse step keeps whatever attempt trace it
was handed. -/
lemma finishLint_attempts (env : PyEnv) (sev : String) (r : Option RunResult)
    (att : List Bool) : (finishLint env sev r att).attempts = att := by
  cases r with
  | none => rfl
  | some rr =>
    simp only [finishLint]
    split
    · split <;> rfl
    · rfl

/-- C2 (counterexample): the claim says a stdin-mode attempt that raises
an exception is followed by exactly one file-path attempt, identically for
linting and formatting.  In `envStdinRaises` the in-process stdin run
raises: linting indeed performs a second, file-mode invocation (attempt
trace `[true, false]`), but formatting performs no second attempt at all —
its trace is `[true]` and it returns no result — because
`_formatting_helper` has no retry around `_run_tool_on_document`, only the
outer `except` that returns `None`. -/
theorem c2_counterexample :
    lintingHelper envStdinRaises [] GlobalSettings.empty sampleDoc = ⟨[], [true, false]⟩ ∧
    formattingHelper envStdinRaises [] GlobalSettings.empty sampleDoc = ⟨none, [true]⟩ := by
  constructor
  · simp +decide [lintingHelper, runToolOnDocument, dispatchRun, selectStrategy, dispatchArgv,
      stdinFileArgs, getSettingsByDocument, getDocumentKey, walkUp, workspaceRoots,
      synthesizedSettings, lintArgs, finishLint, parseSqlfluffOutput, processFileResults,
      envStdinRaises, sampleEnv, sampleDoc, GlobalSettings.empty, pathToString]
  · simp +decide [formattingHelper, runToolOnDocument, dispatchRun, selectStrategy, dispatchArgv,
      stdinFileArgs, getSettingsByDocument, getDocumentKey, walkUp, workspaceRoots,
      synthesizedSettings, fixArgs, envStdinRaises, sampleEnv, sampleDoc,
      GlobalSettings.empty, pathToString]

/-- C2 (amended, proved): when the stdin-mode invocation completes with a
`RunResult` carrying non-empty stderr or empty stdout, the dispatcher
itself makes exactly one additional file-path invocation and returns that
second result as final, with no further retries — this part is shared by
linting and formatting, which both enter through `_run_tool_on_document`.
When the stdin-mode invocation instead raises an exception, only the
linting helper makes the one additional file-path attempt; the formatting
helper makes no second attempt and returns no result. -/
theorem c2_stdin_fallback_policy
    (env : PyEnv) (ws : List (Path × Settings)) (g : GlobalSettings)
    (document : Document) (s : Settings) (p : Path)
    (hnb : pyStartsWith document.uri "vscode-notebook-cell" = false)
    (hstd : env.isStdlibFile document.path = false)
    (hset : getSettingsByDocument env ws g (some document) = .ok s)
    (hp : document.path = some p) :
    (∀ extra r r2, dispatchRun env s document p true extra = .ok r →
       (r.stderr ≠ "" ∨ r.stdout = "") →
       dispatchRun env s document p false extra = .ok r2 →
       runToolOnDocument env ws g document true extra =
         ⟨[true, false], .ok (some r2)⟩) ∧
    (∀ e, dispatchRun env s document p true (fixArgs s) = .error e →
       formattingHelper env ws g document = ⟨none, [true]⟩) ∧
    (∀ e rl, dispatchRun env s document p true (lintArgs s) = .error e →
       dispatchRun env s document p false (lintArgs s) = .ok rl →
       (lintingHelper env ws g document).attempts = [true, false]) := by
  have hguard : ∀ useStdin extra,
      runToolOnDocument env ws g document useStdin extra =
        (match dispatchRun env s document p useStdin extra with
         | .error e => ⟨[useStdin], .error e⟩
         | .ok r =>
           if useStdin ∧ (r.stderr ≠ "" ∨ r.stdout = "") then
             let o := runToolOnDocument env ws g document false extra
             ⟨useStdin :: o.attempts, o.result⟩
           else ⟨[useStdin], .ok (some r)⟩) := by
    intro useStdin extra
    have hstd2 : env.isStdlibFile (some p) = false := hp ▸ hstd
    rw [runToolOnDocument]
    simp [hnb, hstd, hstd2, hset, hp]
  refine ⟨?_, ?_, ?_⟩
  · intro extra r r2 h1 hfail h2
    rw [hguard true extra, h1]
    simp only [hfail, true_and, or_true, if_pos, and_self]
    rw [hguard false extra, h2]
    simp [hfail]
  · intro e hdisp
    simp only [formattingHelper, hset]
    rw [hguard true (fixArgs s), hdisp]
  · intro e rl h1 h2
    simp only [lintingHelper, hset]
    rw [hguard true (lintArgs s), h1]
    rw [hguard false (lintArgs s), h2]
    simp [finishLint_attempts]

/-- Witness for C2's amended theorem: a stderr-carrying stdin result makes
the dispatcher return the file-mode result after exactly two invocations;
a raising stdin run leaves formatting at one attempt with no result while
linting retries once. -/
theorem c2_witness :
    runToolOnDocument envBadStdinResult [] GlobalSettings.empty sampleDoc true [] =
      ⟨[true, false], .ok (some ⟨"fixed sql", ""⟩)⟩ ∧
    formattingHelper envStdinRaises [] GlobalSettings.empty sampleDoc = ⟨none, [true]⟩ ∧
    (lintingHelper envStdinRaises [] GlobalSettings.empty sampleDoc).attempts =
      [true, false] := by
  refine ⟨?_, ?_, ?_⟩
  · exact (c2_stdin_fallback_policy envBadStdinResult [] GlobalSettings.empty sampleDoc
      (synthesizedSettings envBadStdinResult GlobalSettings.empty ["proj"]) ["proj", "q.sql"]
      rfl rfl rfl rfl).1 [] ⟨"", "parse failure"⟩ ⟨"fixed sql", ""⟩ rfl
      (Or.inl (by decide)) rfl
  · exact (c2_stdin_fallback_policy envStdinRaises [] GlobalSettings.empty sampleDoc
      (synthesizedSettings envStdinRaises GlobalSettings.empty ["proj"]) ["proj", "q.sql"]
      rfl rfl rfl rfl).2.1 PyError.toolError rfl
  · exact (c2_stdin_fallback_policy envStdinRaises [] GlobalSettings.empty sampleDoc
      (synthesizedSettings envStdinRaises GlobalSettings.empty ["proj"]) ["proj", "q.sql"]
      rfl rfl rfl rfl).2.2 PyError.toolError ⟨"[]", ""⟩ rfl rfl

-- ****************************************************************
-- C5
-- ****************************************************************

/-- A document whose source contains a CRLF sequence. -/
def crlfDoc : Document :=
  ⟨"file:///proj/q.sql", some ["proj", "q.sql"], "SELECT 1\r\nFROM t\n"⟩

/-- C5 (counterexample): the claim says the content sent to the tool in
stdin mode is newline-normalized under every execution strategy.  With the
echoing environment (current interpreter matches, so the in-process module
strategy runs) the stdout echoed back is the document source with its
`\r\n` intact — the module strategy passes `document.source` unmodified,
unlike the direct-executable branch whose normalization the second and
third conjuncts exhibit. -/
theorem c5_counterexample :
    runToolOnDocument (echoEnv (fun _ => true)) [] GlobalSettings.empty crlfDoc true [] =
      ⟨[true], .ok (some ⟨"SELECT 1\r\nFROM t\n", ""⟩)⟩ ∧
    pyReplace "SELECT 1\r\nFROM t\n" "\r\n" "\n" = "SELECT 1\nFROM t\n" ∧
    ("SELECT 1\r\nFROM t\n" : String) ≠ "SELECT 1\nFROM t\n" := by
  refine ⟨?_, ?_, by decide⟩
  · simp +decide [runToolOnDocument, dispatchRun, selectStrategy, dispatchArgv,
      stdinFileArgs, getSettingsByDocument, getDocumentKey, walkUp, workspaceRoots,
      synthesizedSettings, echoEnv, crlfDoc, GlobalSettings.empty, pathToString]
  · simp +decide [pyReplace, replaceAux]

/-- C5 (amended, proved): only the direct-executable strategy sends the
document content newline-normalized (`\r\n` replaced by `\n`); the RPC and
in-process module strategies send `document.source` unmodified.  Observed
through the echoing environment, which returns the delivered source as
stdout. -/
theorem c5_stdin_normalization (isCur : String → Bool) (s : Settings)
    (document : Document) (p : Path) (useStdin : Bool) (extra : List String) :
    (selectStrategy s isCur = Strategy.direct →
      dispatchRun (echoEnv isCur) s document p useStdin extra =
        .ok ⟨pyReplace document.source "\r\n" "\n", ""⟩) ∧
    (selectStrategy s isCur ≠ Strategy.direct →
      dispatchRun (echoEnv isCur) s document p useStdin extra =
        .ok ⟨document.source, ""⟩) := by
  constructor
  · intro hdir
    simp [dispatchRun, echoEnv, hdir]
  · intro hnotdir
    cases hstrat : selectStrategy s isCur with
    | direct => exact absurd hstrat hnotdir
    | rpc => simp [dispatchRun, echoEnv, hstrat]
    | inProcess => simp [dispatchRun, echoEnv, hstrat]

/-- Witness for C5's amended theorem: the module strategy (empty tool
path, matching interpreter) echoes the unnormalized source; the direct
strategy (tool-path override) echoes the normalized source. -/
theorem c5_witness :
    dispatchRun (echoEnv (fun _ => true))
        (synthesizedSettings (echoEnv (fun _ => true)) GlobalSettings.empty ["proj"])
        crlfDoc ["proj", "q.sql"] true [] =
      .ok ⟨"SELECT 1\r\nFROM t\n", ""⟩ ∧
    dispatchRun (echoEnv (fun _ => true)) pathOverrideSettings crlfDoc
        ["proj", "q.sql"] true [] =
      .ok ⟨pyReplace "SELECT 1\r\nFROM t\n" "\r\n" "\n", ""⟩ := by
  constructor
  · exact (c5_stdin_normalization (fun _ => true)
      (synthesizedSettings (echoEnv (fun _ => true)) GlobalSettings.empty ["proj"])
      crlfDoc ["proj", "q.sql"] true []).2 (by decide)
  · exact (c5_stdin_normalization (fun _ => true) pathOverrideSettings
      crlfDoc ["proj", "q.sql"] true []).1 (by decide)

-- ****************************************************************
-- C3
-- ****************************************************************

/-- Taking a short enough prefix commutes with dropping the last
element. -/
lemma take_dropLast_eq {α : Type} (p : List α) (k : Nat) (hk : k ≤ p.length - 1) :
    p.dropLast.take k = p.take k := by
  rw [List.dropLast_eq_take, List.take_take]
  congr 1
  omega

/-- The upward walk of `_get_document_key` returns the longest prefix of
the document path, other than the filesystem root, that is a workspace
root — the nearest enclosing workspace — whenever any such prefix
exists. -/
lemma walkUp_spec (roots : List Path) :
    ∀ n (p : Path), p.length ≤ n → ∀ (k : Nat), 0 < k → k ≤ p.length → p.take k ∈ roots →
    ∃ m, walkUp roots p = some (p.take m) ∧ k ≤ m ∧ m ≤ p.length ∧
      p.take m ∈ roots ∧ ∀ j, m < j → j ≤ p.length → p.take j ∉ roots := by
  intro n
  induction n with
  | zero =>
    intro p hlen k hk hkl hmem
    omega
  | succ n ih =>
    intro p hlen k hk hkl hmem
    have hpne : p ≠ [] := by
      intro h
      subst h
      simp at hkl
      omega
    by_cases hp : p ∈ roots
    · refine ⟨p.length, ?_, hkl, le_refl _, ?_, ?_⟩
      · rw [walkUp]
        simp [hpne, hp, List.take_length]
      · simpa [List.take_length] using hp
      · intro j h1 h2
        omega
    · have hkless : k < p.length := by
        rcases Nat.lt_or_ge k p.length with h | h
        · exact h
        · exfalso
          have : k = p.length := by omega
          subst this
          rw [List.take_length] at hmem
          exact hp hmem
      have hdl : p.dropLast.length = p.length - 1 := by simp
      obtain ⟨m, hm, hkm, hml, hmem2, hmax⟩ :=
        ih p.dropLast (by omega) k hk (by omega)
          (by rw [take_dropLast_eq p k (by omega)]; exact hmem)
      refine ⟨m, ?_, hkm, by omega, ?_, ?_⟩
      · rw [walkUp]
        simp only [hpne, hp, if_neg, ite_false]
        rw [hm, take_dropLast_eq p m (by omega)]
      · rw [← take_dropLast_eq p m (by omega)]
        exact hmem2
      · intro j h1 h2
        rcases Nat.lt_or_ge j p.length with hj | hj
        · rw [← take_dropLast_eq p j (by omega)]
          exact hmax j h1 (by omega)
        · have : j = p.length := by omega
          subst this
          rw [List.take_length]
          exact hp

/-- Under the invariant that every stored record's `workspaceFS` equals
its dict key (which `_update_workspace_settings` maintains), looking up a
path that occurs among the workspace roots succeeds and returns a record
rooted exactly there. -/
lemma lookupWs_of_root {ws : List (Path × Settings)} {key : Path}
    (hinv : ∀ e ∈ ws, e.2.workspaceFS = e.1) (hkey : key ∈ workspaceRoots ws) :
    ∃ s, lookupWs ws key = some s ∧ s.workspaceFS = key := by
  induction ws with
  | nil => simp [workspaceRoots] at hkey
  | cons e rest ih =>
    by_cases he : e.1 = key
    · refine ⟨e.2, ?_, ?_⟩
      · simp [lookupWs, he]
      · rw [hinv e (List.mem_cons_self e rest)]
        exact he
    · simp only [workspaceRoots, List.map_cons] at hkey
      have hkey2 : key ∈ workspaceRoots rest := by
        rcases List.mem_cons.mp hkey with h | h
        · exfalso
          apply he
          rw [← hinv e (List.mem_cons_self e rest)]
          exact h.symm
        · exact h
      obtain ⟨s, hs1, hs2⟩ := ih (fun x hx => hinv x (List.mem_cons_of_mem e hx)) hkey2
      exact ⟨s, by simp [lookupWs, he, hs1], hs2⟩

/-- A workspace record rooted at the filesystem root `/`. -/
def rootWsSettings : Settings :=
  { cwd := [], workspaceFS := [], workspace := []
    path := [], interpreter := ["/usr/bin/python3"], args := ["--rules", "L010"]
    importStrategy := "useBundled", showNotifications := "off"
    formatOnSave := false, executablePath := ""
    diagnosticSeverity := some "warning", dialect := none, templater := none }

/-- C3 (counterexample): the claim says that whenever some ancestor of
the document's path — including itself — is a known workspace root, the
settings of the nearest such root are returned.  Take the workspace rooted
at the filesystem root `/` (path `[]`), a known root and an ancestor of
the document `/a.sql`.  The upward walk's loop guard
`document_workspace != document_workspace.parent` stops exactly at `/`
without checking it, so `_get_document_key` finds nothing and
`_get_settings_by_document` synthesizes defaults instead of returning the
stored record. -/
theorem c3_counterexample :
    (["a.sql"] : Path).take 0 = ([] : Path) ∧
    ([] : Path) ∈ workspaceRoots [(([] : Path), rootWsSettings)] ∧
    getDocumentKey [(([] : Path), rootWsSettings)] ["a.sql"] = none ∧
    getSettingsByDocument sampleEnv [(([] : Path), rootWsSettings)] GlobalSettings.empty
      (some ⟨"file:///a.sql", some ["a.sql"], ""⟩) =
      .ok (synthesizedSettings sampleEnv GlobalSettings.empty []) ∧
    synthesizedSettings sampleEnv GlobalSettings.empty [] ≠ rootWsSettings := by
  refine ⟨rfl, by decide, ?_, ?_, by decide⟩
  · simp [getDocumentKey, walkUp, workspaceRoots, rootWsSettings]
  · simp [getSettingsByDocument, getDocumentKey, walkUp, workspaceRoots, rootWsSettings]

/-- C3 (amended, proved): for every document whose path has an ancestor
(including itself) other than the filesystem root equal to a known
workspace root, resolution returns the stored settings of the nearest such
enclosing root — the longest matching prefix — and never a sibling's or
descendant's record; a workspace rooted at the filesystem root itself is
never matched, because the walk stops at the root without examining it. -/
theorem c3_nearest_workspace (env : PyEnv) (ws : List (Path × Settings))
    (g : GlobalSettings) (document : Document) (p : Path)
    (hp : document.path = some p)
    (hinv : ∀ e ∈ ws, e.2.workspaceFS = e.1)
    (k : Nat) (hk : 0 < k) (hkl : k ≤ p.length)
    (hmem : p.take k ∈ workspaceRoots ws) :
    ∃ m s, getSettingsByDocument env ws g (some document) = .ok s ∧
      lookupWs ws (p.take m) = some s ∧
      s.workspaceFS = p.take m ∧
      k ≤ m ∧ m ≤ p.length ∧ p.take m ∈ workspaceRoots ws ∧
      (∀ j, m < j → j ≤ p.length → p.take j ∉ workspaceRoots ws) := by
  have hwsne : ws ≠ [] := by
    intro h
    subst h
    simp [workspaceRoots] at hmem
  have hempty : ws.isEmpty = false := by
    cases ws with
    | nil => exact absurd rfl hwsne
    | cons e rest => rfl
  obtain ⟨m, hwalk, hkm, hml, hmem2, hmax⟩ :=
    walkUp_spec (workspaceRoots ws) p.length p le_rfl k hk hkl hmem
  obtain ⟨s, hs1, hs2⟩ := lookupWs_of_root hinv hmem2
  refine ⟨m, s, ?_, hs1, hs2, hkm, hml, hmem2, hmax⟩
  simp [getSettingsByDocument, hp, getDocumentKey, hempty, hwalk, hs1]

/-- Two nested workspace records, at `/a` and `/a/b`. -/
def wsA : Settings :=
  { rootWsSettings with
    cwd := ["a"]
    workspaceFS := ["a"]
    workspace := ["a"]
    args := ["--outer"] }

/-- See `wsA`. -/
def wsAB : Settings :=
  { rootWsSettings with
    cwd := ["a", "b"]
    workspaceFS := ["a", "b"]
    workspace := ["a", "b"]
    args := ["--inner"] }

/-- The workspace map holding `wsA` and `wsAB`. -/
def nestedWs : List (Path × Settings) := [(["a"], wsA), (["a", "b"], wsAB)]

/-- A document at `/a/b/c.sql`, inside both nested workspaces. -/
def nestedDoc : Document := ⟨"file:///a/b/c.sql", some ["a", "b", "c.sql"], "select 1"⟩

/-- Witness for C3's amended theorem: for `/a/b/c.sql` under the nested
workspaces `/a` and `/a/b`, resolution returns a stored record rooted at a
matching prefix of length at least 1, bounded by the path, maximal among
matching prefixes. -/
theorem c3_witness :
    ∃ m s, getSettingsByDocument sampleEnv nestedWs GlobalSettings.empty
        (some nestedDoc) = .ok s ∧
      lookupWs nestedWs ((["a", "b", "c.sql"] : Path).take m) = some s ∧
      s.workspaceFS = (["a", "b", "c.sql"] : Path).take m ∧
      1 ≤ m ∧ m ≤ (["a", "b", "c.sql"] : Path).length ∧
      (["a", "b", "c.sql"] : Path).take m ∈ workspaceRoots nestedWs ∧
      (∀ j, m < j → j ≤ (["a", "b", "c.sql"] : Path).length →
        (["a", "b", "c.sql"] : Path).take j ∉ workspaceRoots nestedWs) :=
  c3_nearest_workspace sampleEnv nestedWs GlobalSettings.empty nestedDoc
    ["a", "b", "c.sql"] rfl (by decide) 1 (by decide) (by decide) (by decide)

-- ****************************************************************
-- C8
-- ****************************************************************

/-- Character lists in which every newline occurs exactly as a `\r\n`
pair: uniform CRLF termination. -/
def uniformCRLF : List Char → Bool
  | [] => true
  | c :: rest =>
    if c = '\r' then
      if rest.head? = some '\n' then uniformCRLF rest.tail else false
    else if c = '\n' then false
    else uniformCRLF rest
termination_by l => l.length
decreasing_by
  · simp only [List.length_tail, List.length_cons]
    omega
  · simp only [List.length_cons]
    omega

/-- Modelled from the spec's words (for comparison with the code's global
substring replacement): "rewrite all terminators in the new body to match
the original" — every line keeps its content and has its terminator, when
it has one, replaced by `eol`. -/
def specRewriteTerminators (eol text : String) : String :=
  String.join ((splitlinesKeepends text).map (fun l =>
    String.mk (l.data.takeWhile (fun c => !(isLineBreak c))) ++
      (if l.data.any (fun c => isLineBreak c) then eol else "")))

/-- Unfolding of Python `replace("\n", repl)` one character at a time. -/
lemma replaceAux_lf_cons (repl : List Char) (c : Char) (rest : List Char) :
    replaceAux '\n' [] repl (c :: rest) =
      if c = '\n' then repl ++ replaceAux '\n' [] repl rest
      else c :: replaceAux '\n' [] repl rest := by
  rw [replaceAux]
  simp [List.isPrefixOf]

/-- Replacing `\n` by `\r\n` in a text free of carriage returns yields a
uniformly CRLF-terminated text. -/
lemma uniformCRLF_replace (l : List Char) (h : ∀ c ∈ l, c ≠ '\r') :
    uniformCRLF (replaceAux '\n' [] ['\r', '\n'] l) = true := by
  induction l with
  | nil => simp [replaceAux, uniformCRLF]
  | cons c rest ih =>
    rw [replaceAux_lf_cons]
    by_cases hc : c = '\n'
    · rw [if_pos hc]
      have hrec := ih (fun x hx => h x (List.mem_cons_of_mem c hx))
      simpa [uniformCRLF] using hrec
    · rw [if_neg hc]
      have hcr : c ≠ '\r' := h c (List.mem_cons_self c rest)
      have hrec := ih (fun x hx => h x (List.mem_cons_of_mem c hx))
      simpa [uniformCRLF, hc, hcr] using hrec

/-- C8 (counterexample): the claim says that when the detected styles
differ, every terminator in the output body is rewritten to the
original's style.  For the `\r\n`-style original `"x\r\ny"` and the
mixed-ending tool output `"a\nb\r\nc"` (detected as `\n` from its first
line), the code's global `text.replace("\n", "\r\n")` turns the second
line's `\r\n` into `\r\r\n`, so the produced text differs from the
per-terminator rewrite of the spec's words. -/
theorem c8_counterexample :
    matchLineEndings "x\r\ny" "a\nb\r\nc" = "a\r\nb\r\r\nc" ∧
    specRewriteTerminators "\r\n" "a\nb\r\nc" = "a\r\nb\r\nc" ∧
    ("a\r\nb\r\r\nc" : String) ≠ "a\r\nb\r\nc" := by
  refine ⟨?_, ?_, by decide⟩
  · simp +decide [matchLineEndings, getLineEndings, lastTwo, splitlinesKeepends,
      splitlinesAux, isLineBreak, pyReplace, replaceAux]
  · simp +decide [specRewriteTerminators, splitlinesKeepends, splitlinesAux,
      isLineBreak, String.join]

/-- C8 (amended, proved): the line-ending styles of the original document
and of the tool output are detected from each text's first line
terminator; when both are detected and differ, the code rewrites the
output by a single global substring replacement of the detected output
terminator with the original's.  For a `\n`-detected output body that is
free of carriage returns — in particular any uniformly `\n`-terminated
body — this rewrites every terminator, and the result is uniformly
`\r\n`-terminated. -/
theorem c8_line_ending_rewrite (docSource text : String)
    (hdoc : getLineEndings (splitlinesKeepends docSource) = some "\r\n")
    (htext : getLineEndings (splitlinesKeepends text) = some "\n")
    (hnocr : ∀ c ∈ text.data, c ≠ '\r') :
    matchLineEndings docSource text = pyReplace text "\n" "\r\n" ∧
    uniformCRLF (pyReplace text "\n" "\r\n").data = true := by
  constructor
  · simp +decide [matchLineEndings, hdoc, htext]
  · have hpy : pyReplace text "\n" "\r\n" =
        String.mk (replaceAux '\n' [] ['\r', '\n'] text.data) := rfl
    rw [hpy]
    simpa using uniformCRLF_replace text.data hnocr

/-- Witness for C8's amended theorem: a `\r\n` source with a uniformly
`\n`-terminated tool output produces the global replacement, which here is
uniformly `\r\n`-terminated. -/
theorem c8_witness :
    (matchLineEndings "x\r\ny" "a\nb\n" = pyReplace "a\nb\n" "\n" "\r\n" ∧
     uniformCRLF (pyReplace "a\nb\n" "\n" "\r\n").data = true) ∧
    pyReplace "a\nb\n" "\n" "\r\n" = "a\r\nb\r\n" := by
  constructor
  · exact c8_line_ending_rewrite "x\r\ny" "a\nb\n"
      (by simp +decide [splitlinesKeepends, splitlinesAux, isLineBreak, getLineEndings, lastTwo])
      (by simp +decide [splitlinesKeepends, splitlinesAux, isLineBreak, getLineEndings, lastTwo])
      (by decide)
  · simp +decide [pyReplace, replaceAux]

end SqlfluffLsp
